import Mathlib

/-!
Verification of the quyca affiliation aggregation core
(`src/quyca/services/affiliation.py` and `src/quyca/core/config.py`).

The service code is shallowly embedded: the repository collaborators
(`AffiliationRepository.upside_relations`, `WorkRepository.count_papers`,
`AffiliationCalculationsRepository.get_by_id`, `AffiliationRepository.search`,
`get_affiliations_related_type`, `get_authors_by_affiliation`) are not part of
the shown sources, so they are passed in as an explicit record of functions;
an `Option`-valued collaborator result models a Python call that may raise
(`none` = the call failed).  Python exception propagation becomes `Option`
plumbing, and Python attribute mutation becomes a functional record update.
-/

set_option autoImplicit false

namespace Quyca

/-- The fixed institution-type vocabulary `Settings.institutions` from
`core/config.py`, verbatim. -/
def institutions : List String :=
  ["Archive", "Company", "Education", "Facility", "Government", "Healthcare",
   "Nonprofit", "Other",
   "archive", "company", "education", "facility", "government", "healthcare",
   "nonprofit", "other",
   "institution"]

/-- A relation record: reference to another entity (id, name, type tag,
optional logo), per the `Relation` entries carried by an affiliation. -/
structure Relation where
  id : String
  name : String
  type : String
  logo : Option String
  deriving DecidableEq

/-- One entry of an affiliation's ordered `types` sequence; only its
`type` tag is read by the service code. -/
structure TypeEntry where
  type : String
  deriving DecidableEq

/-- The `AffiliationSearch` schema as the service code uses it: id, name,
`types`, declared `relations`, the dedicated `affiliations` field that
receives the resolved parents, an optional `logo`, and the derived counts. -/
structure AffiliationSearch where
  id : String
  name : String
  types : List TypeEntry
  relations : List Relation
  affiliations : List Relation
  logo : Option String
  products_count : Int
  citations_count : Int
  deriving DecidableEq

/-- The record returned by the affiliation-calculations store: it carries
the stored citation total for one affiliation id. -/
structure Calculations where
  citations_count : Int
  deriving DecidableEq

/-- The query parameters consumed by `AffiliationService.search`:
`keywords`, `skip`, `max` (the page limit), `sort`, the derived search
mode `get_search`, and the requested `page`. -/
structure AffiliationQueryParams where
  keywords : String
  skip : Nat
  max : Nat
  sort : String
  get_search : String
  page : Nat
  deriving DecidableEq

/-- The paged response envelope `GeneralMultiResponse`: the store-reported
`total_results`, the requested `page`, the enriched page `data`, and
`count`, the length of `data`. -/
structure GeneralMultiResponse where
  total_results : Nat
  page : Nat
  data : List AffiliationSearch
  count : Nat
  deriving DecidableEq

/-- The result of `AffiliationService.get_affiliations` after
`AffiliationRelatedInfo.model_validate` and `model_dump(exclude_none=True)`:
each tier key is present (`some`) exactly when the corresponding conditional
in the source populated it; related entities and authors are abstracted to
their identifiers. -/
structure AffiliationRelatedInfo where
  faculties : Option (List String)
  departments : Option (List String)
  groups : Option (List String)
  authors : Option (List String)
  deriving DecidableEq

/-- The external collaborators of the service (repositories registered on
`AffiliationService`), abstracted to functions.  `upside_relations` and
`count_papers` return `none` when the underlying call fails
(`CollaboratorUnavailable`); `calculations_get_by_id` returns `none` when no
citation record exists for the id. -/
structure Repos where
  upside_relations : List Relation → String → Option (List Relation × Option String)
  count_papers : String → String → Option Int
  calculations_get_by_id : String → Option Calculations
  search : String → Nat → Nat → String → String → List AffiliationSearch × Nat
  get_affiliations_related_type : String → String → Option String → List String
  get_authors_by_affiliation : String → Option String → List String

/-- Python truthiness of the resolver's returned logo (`logo if logo else
obj.logo`): `None` and the empty string are falsy. -/
def truthyLogo : Option String → Bool
  | none => false
  | some s => s != ""

/-- Modelled from the spec: the implementation of
`AffiliationCalculationsRepository.get_by_id` is not in the shown sources;
per the spec the citations count read from it defaults to 0 when no citation
record exists for the id, rather than failing. -/
def citationsCountOf (repos : Repos) (id : String) : Int :=
  match repos.calculations_get_by_id id with
  | some c => c.citations_count
  | none => 0

/-- `AffiliationService.update_affiliation_search`: resolves the upside
relations from `obj.relations` and the primary type `obj.types[0].type`,
stores the parents in `obj.affiliations`, overwrites `obj.logo` only with a
truthy resolver logo, and sets the two derived counts.  Empty `types` makes
the `types[0]` access fail (`none`), as does a failing collaborator call. -/
def update_affiliation_search (repos : Repos) (obj : AffiliationSearch) :
    Option AffiliationSearch :=
  match obj.types with
  | [] => none
  | t0 :: _ =>
    match repos.upside_relations obj.relations t0.type with
    | none => none
    | some (affiliations, logo) =>
      match repos.count_papers obj.id t0.type with
      | none => none
      | some products_count =>
        some { obj with
          affiliations := affiliations
          logo := if truthyLogo logo then logo else obj.logo
          products_count := products_count
          citations_count := citationsCountOf repos obj.id }

/-- The list comprehension in `AffiliationService.search` that enriches every
record of the page; a failure while enriching any record propagates and
aborts the whole comprehension. -/
def enrich_page (repos : Repos) : List AffiliationSearch → Option (List AffiliationSearch)
  | [] => some []
  | obj :: rest =>
    match update_affiliation_search repos obj with
    | none => none
    | some e =>
      match enrich_page repos rest with
      | none => none
      | some es => some (e :: es)

/-- `AffiliationService.search`: queries the store for a page and the total
match count, enriches every record of the page, and returns the envelope with
`total_results` = the store total and `count` = the length of the enriched
page. -/
def AffiliationService.search (repos : Repos) (params : AffiliationQueryParams) :
    Option GeneralMultiResponse :=
  let res := repos.search params.keywords params.skip params.max params.sort params.get_search
  match enrich_page repos res.1 with
  | none => none
  | some data =>
    some { total_results := res.2, page := params.page, data := data, count := data.length }

/-- `AffiliationService.get_affiliations`: populates each tier key exactly
when `typ` is in that tier's eligibility set, mirroring the four conditionals
of the source (`typ` is `Option String` because the Python default is
`None`). -/
def get_affiliations (repos : Repos) (id : String) (typ : Option String) :
    AffiliationRelatedInfo :=
  { faculties :=
      if typ = some "institution" then
        some (repos.get_affiliations_related_type id "faculty" typ)
      else none
    departments :=
      if typ = some "faculty" ∨ typ = some "institution" then
        some (repos.get_affiliations_related_type id "department" typ)
      else none
    groups :=
      if typ = some "department" ∨ typ = some "faculty" ∨ typ = some "institution" then
        some (repos.get_affiliations_related_type id "group" typ)
      else none
    authors :=
      if typ = some "group" ∨ typ = some "department" ∨ typ = some "faculty" then
        some (repos.get_authors_by_affiliation id typ)
      else none }

/-! Formalization vocabulary for the case-variant statements about the
`institutions` vocabulary: ASCII case operations on strings. -/

/-- Lowercase an ASCII character. -/
def lowerChar (c : Char) : Char :=
  if 65 ≤ c.toNat ∧ c.toNat ≤ 90 then Char.ofNat (c.toNat + 32) else c

/-- Uppercase an ASCII character. -/
def upperChar (c : Char) : Char :=
  if 97 ≤ c.toNat ∧ c.toNat ≤ 122 then Char.ofNat (c.toNat - 32) else c

/-- The lowercase spelling of a string (ASCII). -/
def lowercased (s : String) : String := ⟨s.data.map lowerChar⟩

/-- The capitalized spelling of a string (ASCII): first character
uppercased, the rest unchanged. -/
def capitalized (s : String) : String :=
  match s.data with
  | [] => ""
  | c :: cs => ⟨upperChar c :: cs⟩

/-! Concrete fixtures used to instantiate the theorems below. -/

/-- A declared relation of an affiliation, tagged with a recognized
institution type. -/
def relI1 : Relation := { id := "I1", name := "Inst One", type := "Education", logo := none }

/-- A department affiliation with one declared relation and an existing
logo. -/
def objA : AffiliationSearch :=
  { id := "A1", name := "Dept A", types := [{ type := "department" }],
    relations := [relI1], affiliations := [], logo := some "old.png",
    products_count := 0, citations_count := 0 }

/-- The enrichment of `objA` under `demoRepos`. -/
def objA' : AffiliationSearch :=
  { id := "A1", name := "Dept A", types := [{ type := "department" }],
    relations := [relI1], affiliations := [relI1], logo := some "old.png",
    products_count := 3, citations_count := 0 }

/-- An affiliation with an empty `types` sequence. -/
def objB : AffiliationSearch :=
  { id := "A2", name := "Broken", types := [], relations := [], affiliations := [],
    logo := some "keep.png", products_count := 0, citations_count := 0 }

/-- A concrete collaborator record: the resolver keeps the relations tagged
with a recognized institution type and reports no logo, paper counting
returns 3, no citation record exists, and the store search returns one page
record with 25 total matches. -/
def demoRepos : Repos :=
  { upside_relations := fun rels _ => some (rels.filter (fun r => institutions.contains r.type), none)
    count_papers := fun _ _ => some 3
    calculations_get_by_id := fun _ => none
    search := fun _ _ _ _ _ => ([objA], 25)
    get_affiliations_related_type := fun _ _ _ => []
    get_authors_by_affiliation := fun _ _ => [] }

/-- Like `demoRepos`, but the store page contains a record whose enrichment
fails (`objB` has empty `types`). -/
def failRepos : Repos :=
  { demoRepos with search := fun _ _ _ _ _ => ([objA, objB], 25) }

/-- Concrete query parameters with page limit 10. -/
def paramsW : AffiliationQueryParams :=
  { keywords := "univ", skip := 0, max := 10, sort := "name", get_search := "exact", page := 1 }

/-- The response `AffiliationService.search` produces from `demoRepos` and
`paramsW`. -/
def respW : GeneralMultiResponse :=
  { total_results := 25, page := 1, data := [objA'], count := 1 }

/-! Helper lemmas about `enrich_page`. -/

theorem enrich_page_cons (repos : Repos) (obj : AffiliationSearch)
    (rest : List AffiliationSearch) :
    enrich_page repos (obj :: rest) =
      (update_affiliation_search repos obj).bind fun e =>
        (enrich_page repos rest).map fun es => e :: es := by
  simp only [enrich_page]
  cases update_affiliation_search repos obj <;> cases enrich_page repos rest <;> rfl

theorem enrich_page_length (repos : Repos) (l : List AffiliationSearch) :
    ∀ d, enrich_page repos l = some d → d.length = l.length := by
  induction l with
  | nil =>
    intro d h
    obtain rfl : ([] : List AffiliationSearch) = d := by
      simpa [enrich_page] using h.symm
    rfl
  | cons obj rest ih =>
    intro d h
    rw [enrich_page_cons] at h
    obtain ⟨e, _, hd⟩ := Option.bind_eq_some.mp h
    obtain ⟨es, hes, rfl⟩ := Option.map_eq_some'.mp hd
    simp [ih es hes]

theorem enrich_page_none (repos : Repos) (l : List AffiliationSearch)
    (obj : AffiliationSearch) (hmem : obj ∈ l)
    (hfail : update_affiliation_search repos obj = none) :
    enrich_page repos l = none := by
  induction l with
  | nil => cases hmem
  | cons a rest ih =>
    rw [enrich_page_cons]
    rcases List.mem_cons.mp hmem with rfl | hmem'
    · rw [hfail]; rfl
    · rw [ih hmem']
      cases update_affiliation_search repos a <;> rfl

/-- C1: for every affiliation id and every type value, `get_affiliations`
populates each tier key exactly according to the eligibility table:
`faculties` only for "institution"; `departments` only for "faculty" or
"institution"; `groups` only for "department", "faculty" or "institution";
`authors` only for "group", "department" or "faculty". -/
theorem get_affiliations_tier_eligibility (repos : Repos) (id : String)
    (typ : Option String) :
    ((get_affiliations repos id typ).faculties.isSome ↔ typ = some "institution")
    ∧ ((get_affiliations repos id typ).departments.isSome ↔
        typ = some "faculty" ∨ typ = some "institution")
    ∧ ((get_affiliations repos id typ).groups.isSome ↔
        typ = some "department" ∨ typ = some "faculty" ∨ typ = some "institution")
    ∧ ((get_affiliations repos id typ).authors.isSome ↔
        typ = some "group" ∨ typ = some "department" ∨ typ = some "faculty") := by
  refine ⟨?_, ?_, ?_, ?_⟩ <;>
    · simp only [get_affiliations]
      split <;> simp_all

/-- C6: for every affiliation id and every type value outside the four
recognized hierarchy tags (including `none` and arbitrary strings),
`get_affiliations` returns the result with no tiers populated. -/
theorem get_affiliations_unrecognized (repos : Repos) (id : String)
    (typ : Option String)
    (h1 : typ ≠ some "institution") (h2 : typ ≠ some "faculty")
    (h3 : typ ≠ some "department") (h4 : typ ≠ some "group") :
    get_affiliations repos id typ =
      { faculties := none, departments := none, groups := none, authors := none } := by
  simp [get_affiliations, h1, h2, h3, h4]

/-- Witness for C6 at the unrecognized tag "university". -/
theorem get_affiliations_unrecognized_witness :
    get_affiliations demoRepos "X1" (some "university") =
      { faculties := none, departments := none, groups := none, authors := none } :=
  get_affiliations_unrecognized demoRepos "X1" (some "university")
    (by decide) (by decide) (by decide) (by decide)

/-- C7 counterexample: the synonym "institution" is in the vocabulary, but
its capitalized spelling "Institution" is not, so not every synonym of the
vocabulary has both of its case spellings recognized. -/
theorem institutions_case_counterexample :
    "institution" ∈ institutions ∧ capitalized "institution" = "Institution"
      ∧ "Institution" ∉ institutions := by
  decide

/-- C7 (amended): every synonym of the `institutions` vocabulary other than
"institution" has both its capitalized and its lowercase spelling in the
vocabulary; "institution" itself appears only in lowercase. -/
theorem institutions_case_variants (s : String) (hs : s ∈ institutions)
    (hne : s ≠ "institution") :
    capitalized s ∈ institutions ∧ lowercased s ∈ institutions := by
  have H : ∀ t ∈ institutions, t ≠ "institution" →
      capitalized t ∈ institutions ∧ lowercased t ∈ institutions := by decide
  exact H s hs hne

/-- Witness for the amended C7 at the synonym "Archive". -/
theorem institutions_case_variants_witness :
    capitalized "Archive" ∈ institutions ∧ lowercased "Archive" ∈ institutions :=
  institutions_case_variants "Archive" (by decide) (by decide)

/-- C2: when the resolver and paper counting succeed, the enrichment stores
the resolved parent list in the dedicated `affiliations` field, and the
`logo` field is overwritten only with a non-empty resolver logo; a `none` or
empty resolver logo leaves the pre-existing logo unchanged. -/
theorem update_affiliations_and_logo (repos : Repos) (obj : AffiliationSearch)
    (t0 : TypeEntry) (ts : List TypeEntry) (parents : List Relation)
    (l : Option String) (pc : Int)
    (hty : obj.types = t0 :: ts)
    (hup : repos.upside_relations obj.relations t0.type = some (parents, l))
    (hcp : repos.count_papers obj.id t0.type = some pc) :
    ∃ obj', update_affiliation_search repos obj = some obj'
      ∧ obj'.affiliations = parents
      ∧ ((l = none ∨ l = some "") → obj'.logo = obj.logo)
      ∧ (∀ s, l = some s → s ≠ "" → obj'.logo = some s) := by
  refine ⟨{ obj with
      affiliations := parents
      logo := if truthyLogo l then l else obj.logo
      products_count := pc
      citations_count := citationsCountOf repos obj.id }, ?_, rfl, ?_, ?_⟩
  · simp only [update_affiliation_search, hty, hup, hcp]
  · rintro (rfl | rfl) <;> simp [truthyLogo]
  · rintro s rfl hs
    simp [truthyLogo, hs]

/-- Witness for C2: `objA` is enriched under `demoRepos`, its parents land
in `affiliations`, and the resolver logo `none` leaves `old.png` in place. -/
theorem update_affiliations_and_logo_witness :
    ∃ obj', update_affiliation_search demoRepos objA = some obj'
      ∧ obj'.affiliations = [relI1]
      ∧ (((none : Option String) = none ∨ (none : Option String) = some "") →
          obj'.logo = objA.logo)
      ∧ (∀ s, (none : Option String) = some s → s ≠ "" → obj'.logo = some s) :=
  update_affiliations_and_logo demoRepos objA { type := "department" } [] [relI1] none 3
    rfl (by decide) (by decide)

/-- C3: when the resolver and paper counting succeed, the enrichment
succeeds and sets `citations_count` to the value looked up from the citation
record for the affiliation's id; when no citation record exists for the id,
`citations_count` is 0. -/
theorem update_citations_default (repos : Repos) (obj : AffiliationSearch)
    (t0 : TypeEntry) (ts : List TypeEntry) (parents : List Relation)
    (l : Option String) (pc : Int)
    (hty : obj.types = t0 :: ts)
    (hup : repos.upside_relations obj.relations t0.type = some (parents, l))
    (hcp : repos.count_papers obj.id t0.type = some pc) :
    ∃ obj', update_affiliation_search repos obj = some obj'
      ∧ obj'.citations_count = citationsCountOf repos obj.id
      ∧ (repos.calculations_get_by_id obj.id = none → obj'.citations_count = 0) := by
  refine ⟨{ obj with
      affiliations := parents
      logo := if truthyLogo l then l else obj.logo
      products_count := pc
      citations_count := citationsCountOf repos obj.id }, ?_, rfl, ?_⟩
  · simp only [update_affiliation_search, hty, hup, hcp]
  · intro hcc
    simp [citationsCountOf, hcc]

/-- Witness for C3: `demoRepos` has no citation record for `objA`, and the
enrichment sets its citations count to 0. -/
theorem update_citations_default_witness :
    ∃ obj', update_affiliation_search demoRepos objA = some obj'
      ∧ obj'.citations_count = citationsCountOf demoRepos objA.id
      ∧ (demoRepos.calculations_get_by_id objA.id = none → obj'.citations_count = 0) :=
  update_citations_default demoRepos objA { type := "department" } [] [relI1] none 3
    rfl (by decide) (by decide)

/-- C8: an affiliation with empty `types` is rejected by the enrichment (the
`types[0]` access fails, with no in-function recovery), while for any
affiliation with non-empty `types` the `types[0].type` access is
well-defined and the enrichment succeeds whenever the collaborator calls
do. -/
theorem update_types_precondition (repos : Repos) (obj : AffiliationSearch) :
    (obj.types = [] → update_affiliation_search repos obj = none)
    ∧ (∀ t0 ts parents l pc, obj.types = t0 :: ts →
        repos.upside_relations obj.relations t0.type = some (parents, l) →
        repos.count_papers obj.id t0.type = some pc →
        (update_affiliation_search repos obj).isSome) := by
  constructor
  · intro h
    simp only [update_affiliation_search, h]
  · intro t0 ts parents l pc hty hup hcp
    simp only [update_affiliation_search, hty, hup, hcp, Option.isSome_some]

/-- Witness for C8: the empty-types affiliation `objB` fails enrichment, the
one-type affiliation `objA` enriches. -/
theorem update_types_precondition_witness :
    update_affiliation_search demoRepos objB = none
      ∧ (update_affiliation_search demoRepos objA).isSome :=
  ⟨(update_types_precondition demoRepos objB).1 rfl,
   (update_types_precondition demoRepos objA).2 { type := "department" } [] [relI1] none 3
     rfl (by decide) (by decide)⟩

/-- C4: the enrichment is idempotent — if enriching `obj` against unchanged
collaborators yields `y`, then enriching `y` against the same collaborators
yields `y` again. -/
theorem update_idempotent (repos : Repos) (obj y : AffiliationSearch)
    (h : update_affiliation_search repos obj = some y) :
    update_affiliation_search repos y = some y := by
  obtain ⟨i, nm, tys, rels, affs, lg, pc0, cc0⟩ := obj
  rcases tys with _ | ⟨t0, ts⟩
  · simp [update_affiliation_search] at h
  · rcases hup : repos.upside_relations rels t0.type with _ | ⟨parents, l⟩
    · simp [update_affiliation_search, hup] at h
    · rcases hcp : repos.count_papers i t0.type with _ | pc
      · simp [update_affiliation_search, hup, hcp] at h
      · simp only [update_affiliation_search, hup, hcp, Option.some.injEq] at h
        subst h
        simp only [update_affiliation_search, hup, hcp, Option.some.injEq]
        cases htl : truthyLogo l <;> simp [htl]

/-- Witness for C4: enriching the already enriched `objA'` returns `objA'`
unchanged. -/
theorem update_idempotent_witness :
    update_affiliation_search demoRepos objA' = some objA' :=
  update_idempotent demoRepos objA objA' (by decide)

/-- C10: the enrichment changes at most `affiliations`, `logo`,
`products_count` and `citations_count` — the id, name, `types` sequence and
the original `relations` sequence of its input are carried over unchanged
into the result (the resolved parents go to the dedicated `affiliations`
field, not to `relations`). -/
theorem update_frame (repos : Repos) (obj y : AffiliationSearch)
    (h : update_affiliation_search repos obj = some y) :
    y.id = obj.id ∧ y.name = obj.name ∧ y.types = obj.types
      ∧ y.relations = obj.relations := by
  obtain ⟨i, nm, tys, rels, affs, lg, pc0, cc0⟩ := obj
  rcases tys with _ | ⟨t0, ts⟩
  · simp [update_affiliation_search] at h
  · rcases hup : repos.upside_relations rels t0.type with _ | ⟨parents, l⟩
    · simp [update_affiliation_search, hup] at h
    · rcases hcp : repos.count_papers i t0.type with _ | pc
      · simp [update_affiliation_search, hup, hcp] at h
      · simp only [update_affiliation_search, hup, hcp, Option.some.injEq] at h
        subst h
        exact ⟨rfl, rfl, rfl, rfl⟩

/-- Witness for C10: the enrichment of `objA` keeps its id, name, types and
relations. -/
theorem update_frame_witness :
    objA'.id = objA.id ∧ objA'.name = objA.name ∧ objA'.types = objA.types
      ∧ objA'.relations = objA.relations :=
  update_frame demoRepos objA objA' (by decide)

/-- C5: when the store honors the page limit and every record enriches,
the search response's `count` equals the length of the returned `data`,
never exceeds the `max` limit parameter, and `total_results` is the
store-reported total across all pages, a field separate from `count`. -/
theorem search_count_le_limit (repos : Repos) (params : AffiliationQueryParams)
    (resp : GeneralMultiResponse)
    (hlim : (repos.search params.keywords params.skip params.max params.sort
        params.get_search).1.length ≤ params.max)
    (h : AffiliationService.search repos params = some resp) :
    resp.count = resp.data.length ∧ resp.count ≤ params.max
      ∧ resp.total_results = (repos.search params.keywords params.skip params.max
          params.sort params.get_search).2 := by
  simp only [AffiliationService.search] at h
  rcases he : enrich_page repos (repos.search params.keywords params.skip params.max
      params.sort params.get_search).1 with _ | data
  · rw [he] at h
    simp at h
  · rw [he] at h
    simp only [Option.some.injEq] at h
    subst h
    refine ⟨rfl, ?_, rfl⟩
    rw [enrich_page_length repos _ data he]
    exact hlim

/-- Witness for C5 on the concrete one-record page of `demoRepos`. -/
theorem search_count_le_limit_witness :
    respW.count = respW.data.length ∧ respW.count ≤ paramsW.max
      ∧ respW.total_results = (demoRepos.search paramsW.keywords paramsW.skip
          paramsW.max paramsW.sort paramsW.get_search).2 :=
  search_count_le_limit demoRepos paramsW respW (by decide) (by decide)

/-- C9: if enriching any single record of the store's page fails, the whole
search fails — no partial page of the remaining enriched records is
returned. -/
theorem search_fail_fast (repos : Repos) (params : AffiliationQueryParams)
    (obj : AffiliationSearch)
    (hmem : obj ∈ (repos.search params.keywords params.skip params.max params.sort
        params.get_search).1)
    (hfail : update_affiliation_search repos obj = none) :
    AffiliationService.search repos params = none := by
  simp only [AffiliationService.search]
  rw [enrich_page_none repos _ obj hmem hfail]

/-- Witness for C9: under `failRepos` the page contains `objB`, whose
enrichment fails, and the whole search returns no result. -/
theorem search_fail_fast_witness :
    AffiliationService.search failRepos paramsW = none :=
  search_fail_fast failRepos paramsW objB (by decide) (by decide)

end Quyca
